import Mathlib

/-!
Shallow embedding of `src/scripts/generate_combined_graph.js`.

Calendar dates are represented as UTC day numbers: the integer number of
days since 1970-01-01 (so JavaScript `Date` values pinned to UTC midnight
correspond exactly to day numbers, and `setUTCDate` arithmetic is integer
addition).  `getUTCDay` becomes `weekday` below (1970-01-01 was a
Thursday, weekday 4).  Contribution counts are natural numbers.  The
real-number arithmetic in the color-bucket computation is modelled
exactly over `ℚ`.
-/

namespace CombinedGraph

/-- A per-day record produced by `doFetch` (lines 48-54): a date and a
contribution count. -/
structure DayRecord where
  date : Int
  count : Nat
deriving DecidableEq, Repr

/-- JavaScript whitespace recognised by `String.prototype.trim` (the ASCII
part, which is all that can occur in the env strings modelled here). -/
def isJsWS (c : Char) : Bool :=
  c = ' ' || c = '\t' || c = '\n' || c = '\r' || c = '\x0b' || c = '\x0c'

/-- Model of `s.trim()` on a string viewed as a list of characters. -/
def trimChars (l : List Char) : List Char :=
  ((l.dropWhile isJsWS).reverse.dropWhile isJsWS).reverse

/-- Model of `s.split(',')` on a string viewed as a list of characters. -/
def splitOnComma (l : List Char) : List (List Char) :=
  l.foldr
    (fun c acc =>
      match acc with
      | [] => [[c]]
      | cur :: rest => if c = ',' then [] :: cur :: rest else (c :: cur) :: rest)
    [[]]

/-- The default account list literal of line 8. -/
def defaultUsernames : List Char :=
  ("migaradenuwan,MigaraDenuwan-Tokyo").data

/-- Lines 8-9: `(process.env.USERNAMES || default).split(',').map(trim).filter(Boolean)`.
`none` models an unset variable; an empty string is falsy in JavaScript, so
it also falls back to the default. -/
def parseUsernames (env : Option (List Char)) : List (List Char) :=
  let s :=
    match env with
    | none => defaultUsernames
    | some t => if t = [] then defaultUsernames else t
  ((splitOnComma s).map trimChars).filter (fun t => decide (t ≠ []))

/-- Line 66: `process.exit(1)` on the fatal missing-`fetch` path. -/
def fatalExitCode : Nat := 1

/-- Line 79: `process.exitCode = 2` when an account's fetch fails. -/
def fetchFailExitCode : Nat := 2

/-- Line 17: `toDate = today`. -/
def toDateOf (today : Int) : Int := today

/-- Lines 15-16: `fromDate = today` shifted back by `DAYS - 1` days. -/
def fromDateOf (today : Int) (days : Nat) : Int := today - ((days : Int) - 1)

/-- Model of `getUTCDay` on a day number: 0 = Sunday .. 6 = Saturday.  Day 0
(1970-01-01) was a Thursday. -/
def weekday (d : Int) : Int := (d + 4) % 7

/-- Lines 84-86: the Sunday on or before `fromDate`. -/
def gridStart (f : Int) : Int := f - weekday f

/-- Lines 88-90: the Saturday on or after `toDate`. -/
def gridEnd (t : Int) : Int := t + (6 - weekday t)

/-- Line 93: `totalDays = Math.round((end - start) / oneDay) + 1`; exact in
day numbers. -/
def totalDaysOf (s e : Int) : Int := e - s + 1

/-- Line 94: `weeks = Math.ceil(totalDays / 7)`, i.e. floor of
`(totalDays + 6) / 7` (Lean's `Int` division is floor division for a
positive divisor). -/
def weeksOf (total : Int) : Int := (total + 6) / 7

/-- Zero-pad a number to two digits (as `toISOString` does for month/day). -/
def pad2 (n : Nat) : String :=
  if n < 10 then "0" ++ toString n else toString n

/-- Zero-pad a number to four digits (as `toISOString` does for the year). -/
def pad4 (n : Nat) : String :=
  if n < 10 then "000" ++ toString n
  else if n < 100 then "00" ++ toString n
  else if n < 1000 then "0" ++ toString n
  else toString n

/-- Line 99: `d.toISOString().slice(0,10)` — the `YYYY-MM-DD` form of a day
number, via the standard civil-from-days conversion (proleptic Gregorian). -/
def isoOfDay (z0 : Int) : String :=
  let z := z0 + 719468
  let era := z / 146097
  let doe := z - era * 146097
  let yoe := (doe - doe / 1460 + doe / 36524 - doe / 146096) / 365
  let y := yoe + era * 400
  let doy := doe - (365 * yoe + yoe / 4 - yoe / 100)
  let mp := (5 * doy + 2) / 153
  let d := doy - (153 * mp + 2) / 5 + 1
  let m := mp + (if mp < 10 then 3 else (-9 : Int))
  let y2 := y + (if m ≤ 2 then 1 else 0)
  pad4 y2.toNat ++ "-" ++ pad2 m.toNat ++ "-" ++ pad2 d.toNat

/-- Line 75: `aggregated[d.date] = (aggregated[d.date] || 0) + d.count`.
The mapping is modelled as a total function, absent dates reading 0. -/
def bump (m : Int → Nat) (d : DayRecord) : Int → Nat :=
  fun x => if x = d.date then m d.date + d.count else m x

/-- Lines 74-76: fold one account's day list into the mapping. -/
def addDays (m : Int → Nat) (days : List DayRecord) : Int → Nat :=
  days.foldl bump m

/-- Aggregation over a list of (successful) per-account day lists, starting
from the empty mapping of line 69. -/
def aggregate (accounts : List (List DayRecord)) : Int → Nat :=
  accounts.foldl addDays (fun _ => 0)

/-- The total count a single account's day list reports for date `x`. -/
def daySum (days : List DayRecord) (x : Int) : Nat :=
  (days.map (fun d => if x = d.date then d.count else 0)).sum

/-- A per-account fetch failure (line 46 / the `catch` of line 77): the
account name and the error message. -/
structure FetchError where
  account : List Char
  message : List Char
deriving DecidableEq, Repr

/-- Whether a fetch result is a failure. -/
def isErr (r : Except FetchError (List DayRecord)) : Bool :=
  match r with
  | Except.error _ => true
  | Except.ok _ => false

/-- The day lists of the successful fetches, in order. -/
def okLists (results : List (Except FetchError (List DayRecord))) :
    List (List DayRecord) :=
  results.filterMap
    (fun r =>
      match r with
      | Except.ok days => some days
      | Except.error _ => none)

/-- The mutable state of the fetch loop of lines 69-81: the aggregation
object and `process.exitCode` (0 unless set). -/
structure LoopState where
  aggregated : Int → Nat
  exitCode : Nat

/-- One iteration of the fetch loop (lines 70-81): a success is folded into
the mapping; a failure only sets the exit code to 2 and the loop moves on
to the next account. -/
def loopStep (s : LoopState) (r : Except FetchError (List DayRecord)) :
    LoopState :=
  match r with
  | Except.ok days => { s with aggregated := addDays s.aggregated days }
  | Except.error _ => { s with exitCode := fetchFailExitCode }

/-- The whole fetch loop, starting from the empty mapping and exit code 0. -/
def runLoop (results : List (Except FetchError (List DayRecord))) : LoopState :=
  results.foldl loopStep { aggregated := fun _ => 0, exitCode := 0 }

/-- One grid cell (lines 96-101): date, its ISO string and the aggregated
count (0 when the date is absent from the mapping). -/
structure Cell where
  date : Int
  iso : String
  count : Nat
deriving DecidableEq, Repr

/-- Lines 96-101: the ordered list of grid cells, dates `start + i` for
`i < totalDays`. -/
def buildDates (s : Int) (total : Nat) (agg : Int → Nat) : List Cell :=
  (List.range total).map
    (fun (i : Nat) =>
      { date := s + (i : Int)
      , iso := isoOfDay (s + (i : Int))
      , count := agg (s + (i : Int)) })

/-- Line 103: `max = Math.max(0, ...counts)`. -/
def gridMax (cells : List Cell) : Nat :=
  cells.foldl (fun a c => Nat.max a c.count) 0

/-- Line 104: the five fixed color levels. -/
def colors : List String :=
  ["#ebedf0", "#9be9a8", "#40c463", "#30a14e", "#216e39"]

/-- Default used for the (unreachable) out-of-range list read. -/
def noColor : String := ""

/-- The index into `colors` chosen by `colorFor` (lines 105-110):
0 when the count is 0 or the maximum is 0, otherwise
`min (ceil (cnt / max * 4)) 4`, with the ceiling division written in
exact natural-number arithmetic. -/
def bucket (mx cnt : Nat) : Nat :=
  if cnt = 0 then 0
  else if mx = 0 then 0
  else min ((cnt * 4 + mx - 1) / mx) 4

/-- Lines 105-110: the fill color of a cell. -/
def colorFor (mx cnt : Nat) : String :=
  colors.getD (bucket mx cnt) noColor

/-- Line 114. -/
def leftPad : Nat := 20

/-- Line 115. -/
def topPad : Nat := 12

/-- Line 131: the tooltip text of one cell. -/
def tooltipFor (iso : String) (count : Nat) : String :=
  iso ++ ": " ++ toString count ++ " contribution" ++
    (if count ≠ 1 then "s" else "")

/-- The attributes of one rendered `<rect>` (lines 123-132). -/
structure RectCell where
  x : Int
  y : Int
  size : Nat
  rx : Nat
  fill : String
  tooltip : String
deriving DecidableEq, Repr

/-- Lines 123-132: geometry and fill of the cell at overall index `i`.
The week index is `⌊i / 7⌋`; the row is the date's own UTC weekday. -/
def rectFor (cs gap mx : Nat) (i : Nat) (c : Cell) : RectCell :=
  { x := (leftPad : Int) + (i / 7 : Nat) * ((cs : Int) + gap)
  , y := (topPad : Int) + weekday c.date * ((cs : Int) + gap)
  , size := cs
  , rx := 3
  , fill := colorFor mx c.count
  , tooltip := tooltipFor c.iso c.count }

/-- Lines 130-132: serialize one cell. -/
def rectSvg (r : RectCell) : String :=
  "<rect x=\"" ++ toString r.x ++ "\" y=\"" ++ toString r.y ++
    "\" width=\"" ++ toString r.size ++ "\" height=\"" ++ toString r.size ++
    "\" rx=\"" ++ toString r.rx ++ "\" ry=\"" ++ toString r.rx ++
    "\" fill=\"" ++ r.fill ++ "\">" ++
    "<title>" ++ r.tooltip ++ "</title>" ++ "</rect>\n"

/-- Lines 119-121: document header. -/
def svgHeader (w h : Int) : String :=
  "<?xml version=\"1.0\" encoding=\"UTF-8\"?>\n" ++
    "<svg xmlns=\"http://www.w3.org/2000/svg\" width=\"" ++ toString w ++
    "\" height=\"" ++ toString h ++ "\" viewBox=\"0 0 " ++ toString w ++
    " " ++ toString h ++ "\">\n" ++
    "<rect width=\"100%\" height=\"100%\" fill=\"transparent\"/>\n"

/-- The inputs a run depends on: the clock (UTC midnight of "today"),
the resolved numeric configuration, and the remote responses, one entry
per configured account in order. -/
structure RunInput where
  today : Int
  days : Nat
  cellSize : Nat
  gap : Nat
  results : List (Except FetchError (List DayRecord))
deriving Repr

/-- The observable outcome of a run: the bytes of `combined-graph.svg`,
the process exit code, whether the artifact was written, and the final
aggregated mapping. -/
structure RunOutput where
  svg : String
  exitCode : Nat
  written : Bool
  aggregated : Int → Nat

/-- Lines 62-139: the whole pipeline.  Fetch-loop failures are caught per
account, so control always reaches the `writeFileSync` of line 137 and
`written` is unconditionally true. -/
def fullRun (inp : RunInput) : RunOutput :=
  let st := runLoop inp.results
  let f := fromDateOf inp.today inp.days
  let t := toDateOf inp.today
  let s := gridStart f
  let e := gridEnd t
  let total := totalDaysOf s e
  let weeks := weeksOf total
  let cells := buildDates s total.toNat st.aggregated
  let mx := gridMax cells
  let svgW := weeks * ((inp.cellSize : Int) + inp.gap) + leftPad + 10
  let svgH := 7 * ((inp.cellSize : Int) + inp.gap) + topPad + 10
  let body :=
    String.join (cells.enum.map (fun p => rectSvg (rectFor inp.cellSize inp.gap mx p.1 p.2)))
  { svg := svgHeader svgW svgH ++ body ++ "</svg>\n"
  , exitCode := st.exitCode
  , written := true
  , aggregated := st.aggregated }

/-- A sample fetch failure used in concrete checks. -/
def sampleErr : FetchError :=
  { account := ("x").data, message := ("err").data }

/-- A sample run in which the second of two accounts fails. -/
def samplePartial : RunInput :=
  { today := 19725, days := 14, cellSize := 12, gap := 3
  , results := [Except.ok [{ date := 19723, count := 3 }], Except.error sampleErr] }

/-- A sample run in which every account fails. -/
def sampleAllFail : RunInput :=
  { today := 19725, days := 14, cellSize := 12, gap := 3
  , results := [Except.error sampleErr, Except.error sampleErr] }

/-! ### Helper lemmas -/

/-- Natural ceiling division `(a + b - 1) / b` agrees with the rational
ceiling `⌈a / b⌉` for a positive divisor. -/
theorem ceilDiv_eq_rat_ceil (a b : Nat) (hb : 0 < b) :
    (((a + b - 1) / b : Nat) : Int) = ⌈(a : ℚ) / b⌉ := by
  have hdm := Nat.div_add_mod (a + b - 1) b
  have hr : (a + b - 1) % b < b := Nat.mod_lt _ hb
  have h1 : a ≤ b * ((a + b - 1) / b) := by omega
  have h2 : b * ((a + b - 1) / b) + 1 ≤ a + b := by omega
  have hb' : (0 : ℚ) < (b : ℚ) := by exact_mod_cast hb
  have h2' : (b : ℚ) * ((a + b - 1) / b : Nat) + 1 ≤ (a : ℚ) + b := by
    exact_mod_cast h2
  have h1' : (a : ℚ) ≤ (b : ℚ) * ((a + b - 1) / b : Nat) := by exact_mod_cast h1
  symm
  rw [Int.ceil_eq_iff]
  constructor
  · rw [lt_div_iff₀ hb']
    have goalQ : ((((a + b - 1) / b : Nat) : ℚ) - 1) * b < a := by
      have : (((a + b - 1) / b : Nat) : ℚ) * b - b < a := by linarith
      linarith [this, sub_one_mul ((((a + b - 1) / b : Nat)) : ℚ) (b : ℚ)]
    exact_mod_cast goalQ
  · rw [div_le_iff₀ hb']
    have goalQ : (a : ℚ) ≤ (((a + b - 1) / b : Nat) : ℚ) * b := by linarith
    exact_mod_cast goalQ

theorem bucket_pos_branch (mx cnt : Nat) (hc : cnt ≠ 0) (hm : mx ≠ 0) :
    bucket mx cnt = min ((cnt * 4 + mx - 1) / mx) 4 := by
  unfold bucket
  rw [if_neg hc, if_neg hm]

/-! ### Claims -/

/-- Claim C2: the color bucket is 0 when the cell's count is 0 or the grid
maximum is 0 (so a `max = 0` grid renders entirely in the lowest color and
no division by zero occurs), and otherwise equals
`ceil (count / max * 4)` clamped to `[1, 4]`. -/
theorem c2_color_bucket (mx cnt : Nat) :
    (cnt = 0 ∨ mx = 0 → bucket mx cnt = 0 ∧ colorFor mx cnt = "#ebedf0") ∧
    (cnt ≠ 0 → mx ≠ 0 →
      (bucket mx cnt : Int) = min (max ⌈(cnt : ℚ) / mx * 4⌉ 1) 4 ∧
      1 ≤ bucket mx cnt ∧ bucket mx cnt ≤ 4) := by
  constructor
  · rintro (hc | hm)
    · subst hc
      exact ⟨rfl, rfl⟩
    · subst hm
      have hb0 : bucket 0 cnt = 0 := by
        unfold bucket
        by_cases hc : cnt = 0
        · rw [if_pos hc]
        · rw [if_neg hc, if_pos rfl]
      refine ⟨hb0, ?_⟩
      unfold colorFor
      rw [hb0]
      rfl
  · intro hc hm
    have hrw : (cnt : ℚ) / mx * 4 = ((cnt * 4 : Nat) : ℚ) / mx := by
      push_cast
      ring
    have hceil := ceilDiv_eq_rat_ceil (cnt * 4) mx (Nat.pos_of_ne_zero hm)
    have hq1 : 1 ≤ (cnt * 4 + mx - 1) / mx := by
      rw [Nat.one_le_div_iff (Nat.pos_of_ne_zero hm)]
      omega
    refine ⟨?_, ?_, ?_⟩
    · rw [bucket_pos_branch mx cnt hc hm, hrw, ← hceil]
      have : max (((cnt * 4 + mx - 1) / mx : Nat) : Int) 1 =
          (((cnt * 4 + mx - 1) / mx : Nat) : Int) := by
        apply max_eq_left
        exact_mod_cast hq1
      rw [this]
      push_cast [Nat.cast_min]
      rfl
    · rw [bucket_pos_branch mx cnt hc hm]
      omega
    · rw [bucket_pos_branch mx cnt hc hm]
      omega

/-- Witness for C2 at `max = 5`: `bucket 5 0 = 0` via the zero branch, and
the ceiling formula evaluated at count 3. -/
theorem c2_color_bucket_witness :
    (bucket 5 0 = 0 ∧ colorFor 5 0 = "#ebedf0") ∧
    (bucket 5 3 : Int) = min (max ⌈(3 : ℚ) / 5 * 4⌉ 1) 4 :=
  ⟨(c2_color_bucket 5 0).1 (Or.inl rfl),
   ((c2_color_bucket 5 3).2 (by decide) (by decide)).1⟩

/-- Claim C8: the color-bucket function is monotone; for counts
`c1 < c2 ≤ max` the bucket of `c1` is at most the bucket of `c2`. -/
theorem c8_bucket_monotone (mx c1 c2 : Nat) (h12 : c1 < c2) (h2m : c2 ≤ mx) :
    bucket mx c1 ≤ bucket mx c2 := by
  by_cases h1 : c1 = 0
  · subst h1
    simp [bucket]
  · have hc2 : c2 ≠ 0 := by omega
    have hmx : mx ≠ 0 := by omega
    rw [bucket_pos_branch mx c1 h1 hmx, bucket_pos_branch mx c2 hc2 hmx]
    have hdiv : (c1 * 4 + mx - 1) / mx ≤ (c2 * 4 + mx - 1) / mx :=
      Nat.div_le_div_right (by omega)
    exact min_le_min hdiv le_rfl

/-- Witness for C8 at `max = 5`, counts 1 < 5. -/
theorem c8_bucket_monotone_witness : bucket 5 1 ≤ bucket 5 5 :=
  c8_bucket_monotone 5 1 5 (by decide) (by decide)

/-- Claim C4: the window calculator returns `to = today` and
`from = today − (D−1)` by day-granularity arithmetic, the window holds
exactly `D` days, and every offset `i < D` stays inside it. -/
theorem c4_window (today : Int) (D : Nat) (hD : 1 ≤ D) :
    toDateOf today = today ∧
    fromDateOf today D = today - ((D : Int) - 1) ∧
    toDateOf today - fromDateOf today D + 1 = (D : Int) ∧
    (∀ i : Nat, i < D → fromDateOf today D + (i : Int) ≤ toDateOf today) := by
  unfold toDateOf fromDateOf
  refine ⟨rfl, rfl, by omega, ?_⟩
  intro i hi
  omega

/-- Witness for C4 at `today = 19725` (2024-01-03), `D = 365`. -/
theorem c4_window_witness :
    toDateOf 19725 = 19725 ∧ fromDateOf 19725 365 + (3 : Int) ≤ toDateOf 19725 :=
  ⟨(c4_window 19725 365 (by decide)).1,
   (c4_window 19725 365 (by decide)).2.2.2 3 (by decide)⟩

/-- Claim C3: the grid spans `[from, to]` extended outward to the Sunday on
or before `from` and the Saturday on or after `to`; the total span is a
positive multiple of 7, the cell count equals `7 × ceil(totalDays / 7)`
(so every week row has exactly 7 cells), and for `D = 365` with `today` a
Wednesday the grid covers exactly 53 weeks (hence 53 or 54). -/
theorem c3_grid_span (today : Int) (D : Nat) (hD : 1 ≤ D) (s e total : Int)
    (hs : s = gridStart (fromDateOf today D))
    (he : e = gridEnd (toDateOf today))
    (ht : total = totalDaysOf s e) :
    weekday s = 0 ∧ s ≤ fromDateOf today D ∧ fromDateOf today D - s < 7 ∧
    weekday e = 6 ∧ toDateOf today ≤ e ∧ e - toDateOf today < 7 ∧
    0 < total ∧ total % 7 = 0 ∧ total = 7 * weeksOf total ∧
    (∀ agg : Int → Nat, (buildDates s total.toNat agg).length = total.toNat) ∧
    (D = 365 → weekday today = 3 → weeksOf total = 53 ∧
      (weeksOf total = 53 ∨ weeksOf total = 54)) := by
  subst hs he ht
  unfold gridStart gridEnd totalDaysOf weeksOf fromDateOf toDateOf weekday
  refine ⟨by omega, by omega, by omega, by omega, by omega, by omega,
    by omega, by omega, by omega, ?_, ?_⟩
  · intro agg
    unfold buildDates
    rw [List.length_map, List.length_range]
  · intro h365 hwed
    subst h365
    omega

/-- Witness for C3 at `today = 19725` (Wednesday 2024-01-03), `D = 365`. -/
theorem c3_grid_span_witness :
    weekday (gridStart (fromDateOf 19725 365)) = 0 ∧
    weeksOf (totalDaysOf (gridStart (fromDateOf 19725 365))
      (gridEnd (toDateOf 19725))) = 53 :=
  ⟨(c3_grid_span 19725 365 (by decide) _ _ _ rfl rfl rfl).1,
   ((c3_grid_span 19725 365 (by decide) _ _ _ rfl rfl rfl).2.2.2.2.2.2.2.2.2.2
     rfl (by decide)).1⟩

/-- Claim C7: the cell at overall index `i` of the grid sequence has date
`gridStart + i`, belongs to week `⌊i / 7⌋` and weekday `i % 7` (the date's
own UTC weekday equals `i % 7` because the grid starts on a Sunday), and
its rectangle is at `x = leftPad + (i/7)·(cell+gap)`,
`y = topPad + (i%7)·(cell+gap)` with `leftPad = 20`, `topPad = 12` and
corner radius 3. -/
theorem c7_cell_layout (cs gap mx : Nat) (f : Int) (agg : Int → Nat)
    (total i : Nat) (c : Cell)
    (hc : (buildDates (gridStart f) total agg).get? i = some c) :
    c.date = gridStart f + i ∧
    weekday c.date = ((i % 7 : Nat) : Int) ∧
    (rectFor cs gap mx i c).x = (leftPad : Int) + ((i / 7 : Nat) : Int) * ((cs : Int) + gap) ∧
    (rectFor cs gap mx i c).y = (topPad : Int) + ((i % 7 : Nat) : Int) * ((cs : Int) + gap) ∧
    (rectFor cs gap mx i c).rx = 3 ∧ leftPad = 20 ∧ topPad = 12 := by
  unfold buildDates at hc
  rw [List.get?_map] at hc
  rcases Nat.lt_or_ge i total with hi | hi
  · rw [List.get?_range hi, Option.map_some'] at hc
    have hcv := (Option.some.inj hc).symm
    subst hcv
    have hwd : weekday (gridStart f + (i : Int)) = ((i % 7 : Nat) : Int) := by
      simp only [gridStart, weekday]
      omega
    refine ⟨rfl, hwd, rfl, ?_, rfl, rfl, rfl⟩
    unfold rectFor
    rw [hwd]
  · rw [List.get?_eq_none.2 (by simpa using hi)] at hc
    exact absurd hc (by simp)

/-- Witness for C7: the 9th cell (index 8) of a 14-cell grid starting at the
Sunday before 2024-01-01. -/
theorem c7_cell_layout_witness :
    ({ date := 19730, iso := isoOfDay 19730, count := 0 } : Cell).date =
      gridStart 19723 + 8 ∧
    weekday ({ date := 19730, iso := isoOfDay 19730, count := 0 } : Cell).date =
      ((8 % 7 : Nat) : Int) ∧
    (rectFor 12 3 0 8 { date := 19730, iso := isoOfDay 19730, count := 0 }).x =
      (leftPad : Int) + ((8 / 7 : Nat) : Int) * ((12 : Int) + 3) ∧
    (rectFor 12 3 0 8 { date := 19730, iso := isoOfDay 19730, count := 0 }).y =
      (topPad : Int) + ((8 % 7 : Nat) : Int) * ((12 : Int) + 3) ∧
    (rectFor 12 3 0 8 { date := 19730, iso := isoOfDay 19730, count := 0 }).rx = 3 ∧
    leftPad = 20 ∧ topPad = 12 :=
  c7_cell_layout 12 3 0 19723 (fun _ => 0) 14 8
    { date := 19730, iso := isoOfDay 19730, count := 0 } (by rfl)

theorem addDays_apply (days : List DayRecord) (m : Int → Nat) (x : Int) :
    addDays m days x = m x + daySum days x := by
  induction days generalizing m with
  | nil => simp [addDays, daySum]
  | cons d rest ih =>
      have h1 : addDays m (d :: rest) x = addDays (bump m d) rest x := rfl
      rw [h1, ih (bump m d)]
      unfold bump daySum
      simp only [List.map_cons, List.sum_cons]
      by_cases hx : x = d.date
      · subst hx
        rw [if_pos rfl, if_pos rfl]
        omega
      · rw [if_neg hx, if_neg hx]
        omega

theorem foldl_addDays_apply (accounts : List (List DayRecord)) (m : Int → Nat)
    (x : Int) :
    (accounts.foldl addDays m) x =
      m x + (accounts.map (fun days => daySum days x)).sum := by
  induction accounts generalizing m with
  | nil => simp
  | cons a rest ih =>
      have h1 : (a :: rest).foldl addDays m = rest.foldl addDays (addDays m a) := rfl
      rw [h1, ih (addDays m a), addDays_apply]
      simp only [List.map_cons, List.sum_cons]
      omega

theorem aggregate_apply (accounts : List (List DayRecord)) (x : Int) :
    aggregate accounts x = (accounts.map (fun days => daySum days x)).sum := by
  have h := foldl_addDays_apply accounts (fun _ => 0) x
  simpa [aggregate] using h

/-- Claim C1: the aggregated mapping's value at each date is the sum of that
date's count across all accounts, this sum is invariant under reordering of
the accounts, and the two-account scenario
`A = {2024-01-01: 3}`, `B = {2024-01-01: 2, 2024-01-02: 1}` aggregates to
`{2024-01-01: 5, 2024-01-02: 1}` (0 elsewhere).  Day 19723 is 2024-01-01. -/
theorem c1_aggregation (accounts : List (List DayRecord)) (x : Int) :
    aggregate accounts x = (accounts.map (fun days => daySum days x)).sum ∧
    (∀ accounts2, List.Perm accounts accounts2 →
      aggregate accounts x = aggregate accounts2 x) ∧
    (∀ y : Int,
      aggregate [[{ date := 19723, count := 3 }],
        [{ date := 19723, count := 2 }, { date := 19724, count := 1 }]] y =
      if y = 19723 then 5 else if y = 19724 then 1 else 0) := by
  refine ⟨aggregate_apply accounts x, ?_, ?_⟩
  · intro a2 hperm
    rw [aggregate_apply, aggregate_apply]
    exact List.Perm.sum_eq (hperm.map _)
  · intro y
    rw [aggregate_apply]
    simp only [List.map_cons, List.map_nil, List.sum_cons, List.sum_nil, daySum]
    split_ifs <;> omega

/-- Witness for C1: the scenario value at 2024-01-01 is 5, and swapping the
two accounts leaves it unchanged. -/
theorem c1_aggregation_witness :
    aggregate [[{ date := 19723, count := 3 }],
      [{ date := 19723, count := 2 }, { date := 19724, count := 1 }]] 19723 = 5 ∧
    aggregate [[{ date := 19723, count := 3 }],
      [{ date := 19723, count := 2 }, { date := 19724, count := 1 }]] 19723 =
    aggregate [[{ date := 19723, count := 2 }, { date := 19724, count := 1 }],
      [{ date := 19723, count := 3 }]] 19723 :=
  ⟨((c1_aggregation [[{ date := 19723, count := 3 }],
      [{ date := 19723, count := 2 }, { date := 19724, count := 1 }]] 19723).2.2
        19723).trans (by decide),
   (c1_aggregation [[{ date := 19723, count := 3 }],
      [{ date := 19723, count := 2 }, { date := 19724, count := 1 }]] 19723).2.1
     _ (List.Perm.swap _ _ _)⟩

theorem foldl_loopStep_exitCode (results : List (Except FetchError (List DayRecord)))
    (s : LoopState) :
    (results.foldl loopStep s).exitCode =
      if results.any isErr then fetchFailExitCode else s.exitCode := by
  induction results generalizing s with
  | nil => simp
  | cons r rest ih =>
      cases r with
      | ok days =>
          have h1 : (Except.ok days :: rest).foldl loopStep s =
              rest.foldl loopStep { s with aggregated := addDays s.aggregated days } := rfl
          rw [h1, ih]
          simp [isErr]
      | error e =>
          have h1 : (Except.error e :: rest).foldl loopStep s =
              rest.foldl loopStep { s with exitCode := fetchFailExitCode } := rfl
          rw [h1, ih]
          simp [isErr, ite_self]

theorem foldl_loopStep_aggregated (results : List (Except FetchError (List DayRecord)))
    (s : LoopState) (x : Int) :
    (results.foldl loopStep s).aggregated x =
      s.aggregated x + ((okLists results).map (fun days => daySum days x)).sum := by
  induction results generalizing s with
  | nil => simp [okLists]
  | cons r rest ih =>
      cases r with
      | ok days =>
          have h1 : (Except.ok days :: rest).foldl loopStep s =
              rest.foldl loopStep { s with aggregated := addDays s.aggregated days } := rfl
          rw [h1, ih]
          simp only [okLists, List.filterMap_cons]
          rw [addDays_apply]
          simp only [List.map_cons, List.sum_cons]
          omega
      | error e =>
          have h1 : (Except.error e :: rest).foldl loopStep s =
              rest.foldl loopStep { s with exitCode := fetchFailExitCode } := rfl
          rw [h1, ih]
          simp only [okLists, List.filterMap_cons]

theorem okLists_eq_nil (results : List (Except FetchError (List DayRecord)))
    (hall : ∀ r ∈ results, isErr r = true) : okLists results = [] := by
  unfold okLists
  rw [List.filterMap_eq_nil]
  intro r hr
  cases r with
  | ok days => simpa [isErr] using hall _ hr
  | error e => rfl

theorem gridMax_of_all_zero (cells : List Cell) (a : Nat)
    (hz : ∀ c ∈ cells, c.count = 0) :
    cells.foldl (fun a c => Nat.max a c.count) a = a := by
  induction cells generalizing a with
  | nil => rfl
  | cons c rest ih =>
      have hc : c.count = 0 := hz c (by simp)
      have h1 : (c :: rest).foldl (fun a c => Nat.max a c.count) a =
          rest.foldl (fun a c => Nat.max a c.count) (Nat.max a c.count) := rfl
      have hm : Nat.max a 0 = a := by
        unfold Nat.max
        omega
      rw [h1, hc, hm]
      exact ih _ (fun c hcm => hz c (by simp [hcm]))

/-- Claim C5: a per-account fetch failure does not abort the other fetches:
the successful accounts still aggregate exactly as if run alone, the output
artifact is still written, and the exit code is 2 — non-zero and distinct
from the fatal exit code 1. -/
theorem c5_partial_failure (inp : RunInput)
    (h : inp.results.any isErr = true) :
    (fullRun inp).written = true ∧
    (fullRun inp).exitCode = fetchFailExitCode ∧
    (fullRun inp).exitCode ≠ 0 ∧
    (fullRun inp).exitCode ≠ fatalExitCode ∧
    (∀ x, (fullRun inp).aggregated x = aggregate (okLists inp.results) x) := by
  have hE : (fullRun inp).exitCode = (runLoop inp.results).exitCode := rfl
  have hA : (fullRun inp).aggregated = (runLoop inp.results).aggregated := rfl
  have hcode : (fullRun inp).exitCode = fetchFailExitCode := by
    rw [hE]
    unfold runLoop
    rw [foldl_loopStep_exitCode, if_pos h]
  refine ⟨rfl, hcode, ?_, ?_, ?_⟩
  · rw [hcode]
    decide
  · rw [hcode]
    decide
  · intro x
    rw [hA]
    unfold runLoop
    rw [foldl_loopStep_aggregated, aggregate_apply]
    simp

/-- Witness for C5 on `samplePartial` (one of two accounts fails). -/
theorem c5_partial_failure_witness :
    (fullRun samplePartial).exitCode = fetchFailExitCode ∧
    (fullRun samplePartial).written = true ∧
    (fullRun samplePartial).aggregated 19723 = aggregate (okLists samplePartial.results) 19723 :=
  ⟨(c5_partial_failure samplePartial (by decide)).2.1,
   (c5_partial_failure samplePartial (by decide)).1,
   (c5_partial_failure samplePartial (by decide)).2.2.2.2 19723⟩

/-- Claim C6: when every account's fetch fails the aggregated mapping is
empty (0 everywhere), the grid is still valid and all-zero (every cell in
bucket 0, lowest color), the artifact is still written, and the process
exits with the per-account failure code 2 instead of erroring out. -/
theorem c6_all_fail (inp : RunInput) (hne : inp.results ≠ [])
    (hall : ∀ r ∈ inp.results, isErr r = true)
    (cells : List Cell)
    (hcells : cells = buildDates (gridStart (fromDateOf inp.today inp.days))
      (totalDaysOf (gridStart (fromDateOf inp.today inp.days))
        (gridEnd (toDateOf inp.today))).toNat (fullRun inp).aggregated) :
    okLists inp.results = [] ∧
    (∀ x, (fullRun inp).aggregated x = 0) ∧
    (fullRun inp).exitCode = fetchFailExitCode ∧
    (fullRun inp).written = true ∧
    gridMax cells = 0 ∧
    (∀ c ∈ cells, c.count = 0 ∧ bucket (gridMax cells) c.count = 0 ∧
      colorFor (gridMax cells) c.count = "#ebedf0") := by
  have hA : (fullRun inp).aggregated = (runLoop inp.results).aggregated := rfl
  have hok := okLists_eq_nil inp.results hall
  have hagg : ∀ x, (fullRun inp).aggregated x = 0 := by
    intro x
    rw [hA]
    unfold runLoop
    rw [foldl_loopStep_aggregated, hok]
    simp
  have hany : inp.results.any isErr = true := by
    cases hr : inp.results with
    | nil => exact absurd hr hne
    | cons r rest =>
        have := hall r (by rw [hr]; simp)
        simp [this]
  have hcnt : ∀ c ∈ cells, c.count = 0 := by
    intro c hc
    rw [hcells] at hc
    unfold buildDates at hc
    rcases List.mem_map.1 hc with ⟨i, _, hi⟩
    rw [← hi]
    exact hagg _
  have hmax : gridMax cells = 0 := by
    unfold gridMax
    exact gridMax_of_all_zero cells 0 hcnt
  refine ⟨hok, hagg, ?_, rfl, hmax, ?_⟩
  · have hE : (fullRun inp).exitCode = (runLoop inp.results).exitCode := rfl
    rw [hE]
    unfold runLoop
    rw [foldl_loopStep_exitCode, if_pos hany]
  · intro c hc
    have hc0 := hcnt c hc
    rw [hc0]
    exact ⟨rfl, rfl, rfl⟩

/-- Witness for C6 on `sampleAllFail` (both accounts fail). -/
theorem c6_all_fail_witness :
    (fullRun sampleAllFail).aggregated 19723 = 0 ∧
    (fullRun sampleAllFail).exitCode = fetchFailExitCode ∧
    (fullRun sampleAllFail).written = true :=
  ⟨(c6_all_fail sampleAllFail (by simp [sampleAllFail]) (by decide) _ rfl).2.1 19723,
   (c6_all_fail sampleAllFail (by simp [sampleAllFail]) (by decide) _ rfl).2.2.1,
   (c6_all_fail sampleAllFail (by simp [sampleAllFail]) (by decide) _ rfl).2.2.2.1⟩

/-- Claim C9: the pipeline is a pure function of the clock, the numeric
configuration and the remote responses, so two runs with identical inputs
produce byte-identical output artifacts (and identical exit status). -/
theorem c9_deterministic (a b : RunInput) (h : a = b) :
    fullRun a = fullRun b ∧ (fullRun a).svg = (fullRun b).svg ∧
    (fullRun a).exitCode = (fullRun b).exitCode := by
  subst h
  exact ⟨rfl, rfl, rfl⟩

/-- Witness for C9: two identical runs on `samplePartial` agree byte for
byte. -/
theorem c9_deterministic_witness :
    (fullRun samplePartial).svg = (fullRun samplePartial).svg :=
  (c9_deterministic samplePartial samplePartial rfl).2.1

theorem head_dropWhile_not (p : Char → Bool) (l : List Char) (c : Char)
    (h : (l.dropWhile p).head? = some c) : p c = false := by
  induction l with
  | nil => simp [List.dropWhile] at h
  | cons a t ih =>
      rw [List.dropWhile_cons] at h
      by_cases hp : p a
      · rw [if_pos hp] at h
        exact ih h
      · rw [if_neg hp] at h
        have : a = c := by
          simpa using h
        subst this
        simpa using hp

theorem getLast_dropWhile_eq (p : Char → Bool) (l : List Char) :
    l.dropWhile p = [] ∨ (l.dropWhile p).getLast? = l.getLast? := by
  induction l with
  | nil => exact Or.inl rfl
  | cons a t ih =>
      rw [List.dropWhile_cons]
      by_cases hp : p a
      · rw [if_pos hp]
        rcases ih with h0 | heq
        · exact Or.inl h0
        · rcases t with _ | ⟨b, t2⟩
          · exact Or.inl rfl
          · right
            rw [heq]
            simp [List.getLast?_cons_cons]
      · rw [if_neg hp]
        exact Or.inr rfl

theorem trimChars_head_not_ws (l : List Char) (c : Char)
    (h : (trimChars l).head? = some c) : isJsWS c = false := by
  unfold trimChars at h
  rw [List.head?_reverse] at h
  rcases getLast_dropWhile_eq isJsWS (l.dropWhile isJsWS).reverse with h0 | heq
  · rw [h0] at h
    simp at h
  · rw [heq, List.getLast?_reverse] at h
    exact head_dropWhile_not isJsWS l c h

theorem trimChars_getLast_not_ws (l : List Char) (c : Char)
    (h : (trimChars l).getLast? = some c) : isJsWS c = false := by
  unfold trimChars at h
  rw [List.getLast?_reverse] at h
  exact head_dropWhile_not isJsWS (l.dropWhile isJsWS).reverse c h

/-- Claim C10: the accounts string splits on commas, entries are trimmed
and empty entries are discarded, so every parsed name is nonempty with no
leading or trailing whitespace; `"a, b,,c"` yields `["a","b","c"]`, a
string of only commas yields the empty set, and an unset or empty variable
yields the two default sample accounts. -/
theorem c10_usernames :
    (∀ env u, u ∈ parseUsernames env →
      u ≠ [] ∧ (∀ c, u.head? = some c → isJsWS c = false) ∧
      (∀ c, u.getLast? = some c → isJsWS c = false)) ∧
    parseUsernames (some (("a, b,,c").data)) =
      [("a").data, ("b").data, ("c").data] ∧
    parseUsernames (some ((",,,").data)) = [] ∧
    parseUsernames none = [("migaradenuwan").data, ("MigaraDenuwan-Tokyo").data] ∧
    parseUsernames (some []) =
      [("migaradenuwan").data, ("MigaraDenuwan-Tokyo").data] := by
  refine ⟨?_, by decide, by decide, by decide, by decide⟩
  intro env u hu
  unfold parseUsernames at hu
  rw [List.mem_filter] at hu
  rcases hu with ⟨hmem, hne⟩
  rcases List.mem_map.1 hmem with ⟨v, _, hv⟩
  refine ⟨by simpa using hne, ?_, ?_⟩
  · intro c hc
    rw [← hv] at hc
    exact trimChars_head_not_ws v c hc
  · intro c hc
    rw [← hv] at hc
    exact trimChars_getLast_not_ws v c hc

/-- Witness for C10: the first parsed entry of `"a, b,,c"` is nonempty and
its first character is not whitespace. -/
theorem c10_usernames_witness :
    ("a").data ≠ [] ∧ isJsWS 'a' = false :=
  ⟨(c10_usernames.1 (some (("a, b,,c").data)) (("a").data) (by decide)).1,
   (c10_usernames.1 (some (("a, b,,c").data)) (("a").data) (by decide)).2.1 'a'
     (by decide)⟩

end CombinedGraph
